import Mathlib

/-!  Shallow embedding of the auto-fix agent pipeline: `scripts/agent.py`
(Issue model, IssueDetector, IssueFixer, WorkflowOrchestrator),
`scripts/detectors.py` (DetectionResult, DockerDetector), `scripts/fixers.py`
(DockerFixer) and `scripts/validators.py` (the validators and ValidatorChain).

External subprocess invocations are modelled by an environment value recording
the outcome of each call: the structured result the Python code extracts from
the completed process, a missing executable (`FileNotFoundError`), or any other
raised exception (`subprocess.TimeoutExpired` included) carrying its text.
-/

/-- Outcome of one external subprocess invocation, as the Python call sites
distinguish them: `ok` is a completed process carrying the data the caller
reads off it, `notFound` is `FileNotFoundError`, and `raised` is any other
exception (timeouts included) with its rendered text. -/
inductive CallResult (α : Type) where
  | ok (v : α)
  | notFound
  | raised (msg : String)
deriving DecidableEq

/-- True when the call did not complete normally (an exception was raised). -/
def CallResult.failed : CallResult α → Bool
  | .ok _ => false
  | .notFound => true
  | .raised _ => true

/-- The `Issue` dataclass of `scripts/agent.py` (the spec's Finding).  The
dataclass has no `__post_init__`, so construction never validates anything;
`fix_command` defaults to `None`. -/
structure Issue where
  issue_type : String
  severity : String
  file : String
  line : Nat
  message : String
  fixable : Bool
  fix_command : Option String := none
deriving DecidableEq

/-- One entry of the JSON `results` array produced by the bandit scan, with
the fields `detect_security_issues` reads. -/
structure BanditIssue where
  severity : String
  filename : String
  line_number : Nat
  issue_text : String
deriving DecidableEq

/-- Python `str.lower()`, character by character. -/
def strLower (s : String) : String := ⟨s.data.map Char.toLower⟩

/-- Helper for substring containment: does `needle` occur inside the list? -/
def occursInAux (needle : List Char) : List Char → Bool
  | [] => needle.isEmpty
  | c :: t => needle.isPrefixOf (c :: t) || occursInAux needle t

/-- Python `sub in s` substring containment. -/
def containsSub (s sub : String) : Bool := occursInAux sub.data s.data

/-- Helper for Python `str.count`: non-overlapping occurrences of the
non-empty pattern `n0 :: ntail`, scanning left to right. -/
def countOccAux (n0 : Char) (ntail : List Char) : List Char → Nat
  | [] => 0
  | c :: t =>
    if (n0 :: ntail).isPrefixOf (c :: t) then 1 + countOccAux n0 ntail (t.drop ntail.length)
    else countOccAux n0 ntail t
termination_by l => l.length
decreasing_by
  · simp only [List.length_drop, List.length_cons]
    omega
  · simp only [List.length_cons]
    omega

/-- Python `s.count(sub)` (non-overlapping occurrences). -/
def strCount (s sub : String) : Nat :=
  match sub.data with
  | [] => s.data.length + 1
  | n0 :: ntail => countOccAux n0 ntail s.data

/-- Environment for one `IssueDetector` run: the outcome of every external
call the four detectors make, plus the filesystem facts they read.  `pip list
--outdated` and `npm outdated` results are carried already parsed where the
code parses them. -/
structure DetectEnv where
  workspace : String
  blackCheck : CallResult Int
  isortCheck : CallResult Int
  pyFiles : List String
  pylint : CallResult (String × String)
  bandit : CallResult (Option (List BanditIssue))
  reqFiles : List String
  pipOutdated : CallResult (Option (List String))
  packageJsonExists : Bool
  npmOutdated : CallResult String
deriving DecidableEq

/-- The Issue appended when `black --check` exits non-zero. -/
def formattingIssue (ws : String) : Issue :=
  { issue_type := "formatting", severity := "low", file := "(multiple)", line := 0,
    message := "Code not formatted according to Black standards",
    fixable := true, fix_command := some ("black " ++ ws) }

/-- The Issue appended when `isort --check-only` exits non-zero. -/
def importsIssue (ws : String) : Issue :=
  { issue_type := "imports", severity := "low", file := "(multiple)", line := 0,
    message := "Imports not sorted correctly",
    fixable := true, fix_command := some ("isort " ++ ws) }

/-- The Issue appended when the pylint output mentions errors or warnings. -/
def lintingIssue (ws : String) : Issue :=
  { issue_type := "linting", severity := "medium", file := "(multiple)", line := 0,
    message := "Linting issues detected",
    fixable := true,
    fix_command := some ("pylint --rcfile=/dev/null " ++ ws ++ " --fix-imports=y") }

/-- The Issue built from one bandit result entry. -/
def securityIssue (b : BanditIssue) : Issue :=
  { issue_type := "security", severity := strLower b.severity, file := b.filename,
    line := b.line_number, message := b.issue_text, fixable := false }

/-- The Issue appended for one requirements file when `pip list --outdated`
reports `n` outdated packages. -/
def pipDepsIssue (n : Nat) (req : String) : Issue :=
  { issue_type := "dependencies", severity := "medium", file := req, line := 0,
    message := toString n ++ " outdated dependencies found",
    fixable := true,
    fix_command := some ("pip install --upgrade pip && pip install -r " ++ req ++ " --upgrade") }

/-- The Issue appended when `npm outdated --json` prints a non-empty,
non-`\x7b\x7d` report. -/
def npmDepsIssue : Issue :=
  { issue_type := "npm-dependencies", severity := "medium", file := "package.json", line := 0,
    message := "Outdated npm packages found",
    fixable := true, fix_command := some "npm update" }

namespace IssueDetector

/-- Embedding of `IssueDetector.detect_formatting_issues`: both check calls sit
in one `try`; `FileNotFoundError` and any other exception alike end the method
returning the issues accumulated so far. -/
def detect_formatting_issues (env : DetectEnv) : List Issue :=
  match env.blackCheck with
  | .ok rc =>
    let issues := if rc ≠ 0 then [formattingIssue env.workspace] else []
    match env.isortCheck with
    | .ok rc2 => issues ++ (if rc2 ≠ 0 then [importsIssue env.workspace] else [])
    | _ => issues
  | _ => []

/-- Embedding of `IssueDetector.detect_security_issues`: an empty stdout is
`ok none`; a JSON parse failure or any exception yields no issues. -/
def detect_security_issues (env : DetectEnv) : List Issue :=
  match env.bandit with
  | .ok (some results) => results.map securityIssue
  | _ => []

/-- Embedding of `IssueDetector.detect_linting_issues`: with no Python files
the method returns early; otherwise one aggregate issue is reported when the
combined stdout and stderr mention `error` or `warning` (case-insensitive). -/
def detect_linting_issues (env : DetectEnv) : List Issue :=
  if env.pyFiles = [] then []
  else
    match env.pylint with
    | .ok (out, err) =>
      if containsSub (strLower (out ++ err)) "error" ∨
         containsSub (strLower (out ++ err)) "warning" then [lintingIssue env.workspace]
      else []
    | _ => []

/-- Embedding of `IssueDetector.detect_dependency_issues`: one pip issue per
requirements file when the outdated list is non-empty (per-file exceptions are
swallowed), then one npm issue when `package.json` exists and `npm outdated`
prints something other than nothing or `\x7b\x7d`. -/
def detect_dependency_issues (env : DetectEnv) : List Issue :=
  let pipIssues :=
    match env.pipOutdated with
    | .ok (some outdated) =>
      if outdated ≠ [] then env.reqFiles.map (fun req => pipDepsIssue outdated.length req)
      else []
    | _ => []
  let npmIssues :=
    if env.packageJsonExists then
      match env.npmOutdated with
      | .ok out => if out ≠ "" ∧ out ≠ "\x7b\x7d" then [npmDepsIssue] else []
      | _ => []
    else []
  pipIssues ++ npmIssues

/-- Embedding of `IssueDetector.run_all_detectors`: concatenation in the
source's order. -/
def run_all_detectors (env : DetectEnv) : List Issue :=
  detect_formatting_issues env ++ detect_linting_issues env ++
  detect_security_issues env ++ detect_dependency_issues env

end IssueDetector

/-- Environment for one `IssueFixer` run: the outcome of each fix command.
The commands run with `check=True`, so a non-zero exit is an exception; `ok`
therefore means the command completed with exit status 0. -/
structure FixEnv where
  workspace : String
  blackFix : CallResult Unit
  isortFix : CallResult Unit
  reqFiles : List String
  pipInstall : CallResult Unit
  packageJsonExists : Bool
  npmUpdate : CallResult Unit
deriving DecidableEq

/-- Mutable state of an `IssueFixer`: its `fixed_count` counter, 0 at
construction. -/
structure FixerState where
  fixed_count : Nat := 0
deriving DecidableEq

/-- Instrumentation of one `apply_fixes` call: how many times each fix method
was invoked (the source invokes each at most once per call). -/
structure FixLog where
  formattingCalls : Nat
  depCalls : Nat
deriving DecidableEq

namespace IssueFixer

/-- Embedding of `IssueFixer.fix_formatting`: run black then isort (both
`check=True`); on success add 2 to `fixed_count` and return True, on any
exception leave the counter alone and return False. -/
def fix_formatting (env : FixEnv) (s : FixerState) : Bool × FixerState :=
  if env.blackFix.failed then (false, s)
  else if env.isortFix.failed then (false, s)
  else (true, { s with fixed_count := s.fixed_count + 2 })

/-- Embedding of `IssueFixer.fix_dependencies`: upgrade each requirements file
via pip, then run `npm update` when `package.json` exists; on success add 1 to
`fixed_count` and return True, on any exception leave the counter alone and
return False. -/
def fix_dependencies (env : FixEnv) (s : FixerState) : Bool × FixerState :=
  if env.reqFiles ≠ [] ∧ env.pipInstall.failed then (false, s)
  else if env.packageJsonExists ∧ env.npmUpdate.failed then (false, s)
  else (true, { s with fixed_count := s.fixed_count + 1 })

/-- Embedding of `IssueFixer.apply_fixes`: group the issues by type, invoke
`fix_formatting` when the formatting/imports group is non-empty and
`fix_dependencies` when the dependencies group is non-empty, and return the
resulting `fixed_count` (with the final state and an invocation log). -/
def apply_fixes (env : FixEnv) (issues : List Issue) (s : FixerState) :
    Nat × FixerState × FixLog :=
  let formatting_issues := issues.filter
    (fun i => ["formatting", "imports"].contains i.issue_type)
  let dep_issues := issues.filter
    (fun i => ["dependencies", "npm-dependencies"].contains i.issue_type)
  let (s1, fCalls) :=
    if formatting_issues ≠ [] then ((fix_formatting env s).2, 1) else (s, 0)
  let (s2, dCalls) :=
    if dep_issues ≠ [] then ((fix_dependencies env s1).2, 1) else (s1, 0)
  (s2.fixed_count, s2, ⟨fCalls, dCalls⟩)

end IssueFixer

/-- Environment for one `WorkflowOrchestrator.run`: the detection environment
and the fixing environment of the run. -/
structure RunEnv where
  detect : DetectEnv
  fix : FixEnv
deriving DecidableEq

/-- Result of one `WorkflowOrchestrator.run`: the returned boolean, the
`fixed_count` of the run's fixer, the fix invocation log, and whether the fix
phase (`apply_fixes`) was entered at all. -/
structure RunResult where
  success : Bool
  fixedCount : Nat
  log : FixLog
  enteredFixPhase : Bool
deriving DecidableEq

namespace WorkflowOrchestrator

/-- Embedding of `WorkflowOrchestrator.run`: detect; with no issues return True
at once (the fixer, fresh from construction, still has `fixed_count = 0` and
was never invoked); otherwise report, apply fixes, and return True. -/
def run (env : RunEnv) : RunResult :=
  let issues := IssueDetector.run_all_detectors env.detect
  if issues = [] then
    { success := true, fixedCount := 0, log := ⟨0, 0⟩, enteredFixPhase := false }
  else
    let r := IssueFixer.apply_fixes env.fix issues ⟨0⟩
    { success := true, fixedCount := r.1, log := r.2.2, enteredFixPhase := true }

end WorkflowOrchestrator

/-- The filesystem facts `DockerFixer` and `DockerDetector` read and write:
the contents of `Dockerfile` and `.dockerignore` when those files exist. -/
structure FsWorkspace where
  dockerfile : Option String
  dockerignore : Option String
deriving DecidableEq

/-- Python `str.strip()`: drop leading and trailing whitespace. -/
def strStrip (s : String) : String :=
  ⟨((s.data.dropWhile Char.isWhitespace).reverse.dropWhile Char.isWhitespace).reverse⟩

/-- The `default_ignores` literal of `DockerFixer.optimize_dockerfile`,
newline-framed exactly as in the source. -/
def default_ignores : String :=
  "\n.git\n.gitignore\n.dockerignore\n.env\nnode_modules\n__pycache__\n.pytest_cache\n.venv\nbuild\ndist\n*.egg-info\n.vscode\n.idea\n"

namespace DockerFixer

/-- Embedding of `DockerFixer.optimize_dockerfile`: return False when no
`Dockerfile` exists; otherwise, when `.dockerignore` is missing, write the
stripped default ignore set and return True, else return False. -/
def optimize_dockerfile (ws : FsWorkspace) : Bool × FsWorkspace :=
  match ws.dockerfile with
  | none => (false, ws)
  | some _ =>
    match ws.dockerignore with
    | none => (true, { ws with dockerignore := some (strStrip default_ignores) })
    | some _ => (false, ws)

end DockerFixer

/-- The `DetectionResult` dataclass of `scripts/detectors.py`; `details` is the
`issues` mapping as an ordered association list. -/
structure DetectionResult where
  category : String
  found : Bool
  count : Nat
  details : List (String × Bool)
  severity : String
deriving DecidableEq

namespace DockerDetector

/-- Embedding of `DockerDetector.detect_docker_best_practices`: the three
checks default to unmet, the first two are evaluated from the `Dockerfile`
content when it exists, `found` is the literal True, and `count` is the number
of unmet checks. -/
def detect_docker_best_practices (ws : FsWorkspace) : DetectionResult :=
  let issues : List (String × Bool) :=
    match ws.dockerfile with
    | some content =>
      [("multi_stage", containsSub content "FROM" && decide (strCount content "FROM" > 1)),
       ("layer_caching", containsSub content "RUN"),
       ("security_scan", false)]
    | none =>
      [("multi_stage", false), ("layer_caching", false), ("security_scan", false)]
  { category := "docker", found := true,
    count := (issues.filter (fun p => !p.2)).length,
    details := issues, severity := "medium" }

end DockerDetector

/-- Environment for one validator-chain run: the filesystem facts the three
validators read and the outcome of each external call they make. -/
structure ValEnv where
  pyFiles : List String
  pyCompile : CallResult Int
  pytest : CallResult (Int × String)
  packageJsonExists : Bool
  npmTest : CallResult (Int × String)
  dockerfileExists : Bool
  dockerBuild : CallResult (Int × String)
  composeExists : Bool
  composeConfig : CallResult (Int × String)
deriving DecidableEq

namespace PythonValidator

/-- Embedding of `PythonValidator.validate`: compile every Python file (the
method never checks whether any exist), then run pytest; `FileNotFoundError`
anywhere passes with "Python validators not available", any other exception
fails with "Validation error: ...". -/
def validate (env : ValEnv) : Bool × String :=
  match env.pyCompile with
  | .notFound => (true, "Python validators not available")
  | .raised m => (false, "Validation error: " ++ m)
  | .ok rc =>
    if rc ≠ 0 then (false, "Python syntax errors detected")
    else
      match env.pytest with
      | .notFound => (true, "Python validators not available")
      | .raised m => (false, "Validation error: " ++ m)
      | .ok (rc2, out) =>
        if rc2 ≠ 0 then (false, "Tests failed:\n" ++ out)
        else (true, "Python validation passed")

end PythonValidator

namespace JavaScriptValidator

/-- Embedding of `JavaScriptValidator.validate`: short-circuit when no
`package.json` exists, otherwise run `npm test`. -/
def validate (env : ValEnv) : Bool × String :=
  if ¬env.packageJsonExists then (true, "No JavaScript project found")
  else
    match env.npmTest with
    | .notFound => (true, "npm not available")
    | .raised m => (false, "Validation error: " ++ m)
    | .ok (rc, out) =>
      if rc ≠ 0 then (false, "Tests failed:\n" ++ out)
      else (true, "JavaScript validation passed")

end JavaScriptValidator

namespace DockerValidator

/-- Embedding of `DockerValidator.validate`: build the image when a
`Dockerfile` exists, then check `docker-compose.yml` when it exists; both
steps skipped (or both succeeding) yields "Docker validation passed". -/
def validate (env : ValEnv) : Bool × String :=
  let composeStep : Bool × String :=
    if env.composeExists then
      match env.composeConfig with
      | .notFound => (true, "Docker not available for validation")
      | .raised m => (false, "Validation error: " ++ m)
      | .ok (rc, err) =>
        if rc ≠ 0 then (false, "Docker Compose validation failed:\n" ++ err)
        else (true, "Docker validation passed")
    else (true, "Docker validation passed")
  if env.dockerfileExists then
    match env.dockerBuild with
    | .notFound => (true, "Docker not available for validation")
    | .raised m => (false, "Validation error: " ++ m)
    | .ok (rc, err) =>
      if rc ≠ 0 then (false, "Docker build failed:\n" ++ err)
      else composeStep
  else composeStep

end DockerValidator

/-- One entry of the `results` list built by `ValidatorChain.validate_all`. -/
structure VRecord where
  validator : String
  passed : Bool
  message : String
deriving DecidableEq

/-- A registered validator as the chain's loop sees it: its class name and the
outcome of calling its `validate` method — either the returned pair or an
exception with its text. -/
def VOutcome := String × Except String (Bool × String)

/-- The record one loop iteration of `validate_all` appends for one
validator-call outcome. -/
def recordOf (v : VOutcome) : VRecord :=
  match v.2 with
  | .ok (passed, message) => ⟨v.1, passed, message⟩
  | .error e => ⟨v.1, false, "Error: " ++ e⟩

/-- The loop of `ValidatorChain.validate_all`, carrying the `all_passed` flag
and the accumulated `results` list. -/
def validate_all_go (vs : List VOutcome) (all_passed : Bool)
    (results : List VRecord) : Bool × List VRecord :=
  match vs with
  | [] => (all_passed, results)
  | v :: rest =>
    match v.2 with
    | .ok (passed, message) =>
      validate_all_go rest (if ¬passed then false else all_passed)
        (results ++ [⟨v.1, passed, message⟩])
    | .error e =>
      validate_all_go rest false (results ++ [⟨v.1, false, "Error: " ++ e⟩])

/-- Embedding of `ValidatorChain.validate_all` over an arbitrary list of
registered validators (each presented by its call outcome): `all_passed`
starts True, every validator is visited, and a raising validator contributes a
failed record rather than propagating. -/
def validate_all (vs : List VOutcome) : Bool × List VRecord :=
  validate_all_go vs true []

/-- The chain as constructed in `ValidatorChain.__init__`: the three concrete
validators in registration order.  Each concrete `validate` is total (it
catches its own exceptions), so each outcome is `Except.ok`. -/
def chainRegistered (env : ValEnv) : List VOutcome :=
  [("PythonValidator", Except.ok (PythonValidator.validate env)),
   ("JavaScriptValidator", Except.ok (JavaScriptValidator.validate env)),
   ("DockerValidator", Except.ok (DockerValidator.validate env))]

/-- Embedding of `ValidatorChain.validate_all` applied to the concrete
registered chain. -/
def chain_validate_all (env : ValEnv) : Bool × List VRecord :=
  validate_all (chainRegistered env)

/-! Helper lemmas. -/

/-- Appending to a string with non-empty data keeps the data non-empty. -/
lemma append_data_ne_nil (s t : String) (h : s.data ≠ []) : (s ++ t).data ≠ [] := by
  rw [String.data_append]
  intro he
  exact h (List.append_eq_nil.mp he).1

/-- A string whose first component has non-empty data is not the empty
string. -/
lemma append_ne_empty (s t : String) (h : s.data ≠ []) : s ++ t ≠ "" := by
  intro he
  have hd := congrArg String.data he
  rw [String.data_append] at hd
  exact h (List.append_eq_nil.mp hd).1

/-- Every issue the formatting detector can emit is one of the two fixed
issues for the run's workspace. -/
lemma mem_detect_formatting {env : DetectEnv} {i : Issue}
    (h : i ∈ IssueDetector.detect_formatting_issues env) :
    i = formattingIssue env.workspace ∨ i = importsIssue env.workspace := by
  unfold IssueDetector.detect_formatting_issues at h
  repeat' split at h
  all_goals simp_all

/-- Every issue the linting detector can emit is the fixed linting issue. -/
lemma mem_detect_linting {env : DetectEnv} {i : Issue}
    (h : i ∈ IssueDetector.detect_linting_issues env) :
    i = lintingIssue env.workspace := by
  unfold IssueDetector.detect_linting_issues at h
  repeat' split at h
  all_goals simp_all

/-- Every issue the security detector can emit comes from one bandit result
entry. -/
lemma mem_detect_security {env : DetectEnv} {i : Issue}
    (h : i ∈ IssueDetector.detect_security_issues env) :
    ∃ b, i = securityIssue b := by
  unfold IssueDetector.detect_security_issues at h
  split at h
  · rcases List.mem_map.mp h with ⟨b, _, hb⟩
    exact ⟨b, hb.symm⟩
  · simp at h

/-- Every issue the dependency detector can emit is a pip issue for one of the
requirements files or the fixed npm issue. -/
lemma mem_detect_dependency {env : DetectEnv} {i : Issue}
    (h : i ∈ IssueDetector.detect_dependency_issues env) :
    (∃ n req, i = pipDepsIssue n req) ∨ i = npmDepsIssue := by
  unfold IssueDetector.detect_dependency_issues at h
  repeat' split at h
  all_goals simp only [List.mem_append, List.mem_map, List.mem_singleton,
    List.not_mem_nil, List.append_nil, List.nil_append, or_false, false_or] at h
  all_goals first
    | exact h.elim
    | (rcases h with ⟨req, _, hr⟩ | hr
       · exact Or.inl ⟨_, req, hr.symm⟩
       · exact Or.inr hr)
    | (rcases h with ⟨req, _, hr⟩
       exact Or.inl ⟨_, req, hr.symm⟩)
    | exact Or.inr h

/-! Claim C1: Finding construction and the fixable/remedy invariant. -/

/-- Claim C1, counterexample: the `Issue` dataclass validates nothing at
construction — an Issue with `fixable = true` and `fix_command = None` is
constructed successfully, so the claimed construction-time failure does not
happen. -/
theorem issue_construction_unvalidated :
    (Issue.mk "formatting" "low" "app.py" 0 "bad layout" true none).fixable = true ∧
    (Issue.mk "formatting" "low" "app.py" 0 "bad layout" true none).fix_command = none :=
  ⟨rfl, rfl⟩

/-- Claim C1 (amended): construction of an `Issue` is never validated, but
every Issue the detectors actually produce satisfies the invariant — if it is
fixable, its `fix_command` is present and non-empty. -/
theorem detector_issues_fixable_have_remedy (env : DetectEnv) (i : Issue)
    (hmem : i ∈ IssueDetector.run_all_detectors env) (hfix : i.fixable = true) :
    ∃ c, i.fix_command = some c ∧ c ≠ "" := by
  unfold IssueDetector.run_all_detectors at hmem
  simp only [List.mem_append] at hmem
  rcases hmem with ((hf | hl) | hs) | hd
  · rcases mem_detect_formatting hf with rfl | rfl
    · exact ⟨_, rfl, append_ne_empty _ _ (by decide)⟩
    · exact ⟨_, rfl, append_ne_empty _ _ (by decide)⟩
  · rcases mem_detect_linting hl with rfl
    exact ⟨_, rfl, append_ne_empty _ _ (append_data_ne_nil _ _ (by decide))⟩
  · obtain ⟨b, rfl⟩ := mem_detect_security hs
    simp [securityIssue] at hfix
  · rcases mem_detect_dependency hd with ⟨n, req, rfl⟩ | rfl
    · exact ⟨_, rfl, append_ne_empty _ _ (append_data_ne_nil _ _ (by decide))⟩
    · exact ⟨_, rfl, by decide⟩

/-- Detection environment exercising the amended claim C1: black reports a
formatting deviation and every other capability is absent. -/
def c1Env : DetectEnv :=
  { workspace := ".", blackCheck := .ok 1, isortCheck := .ok 0, pyFiles := [],
    pylint := .notFound, bandit := .ok none, reqFiles := [],
    pipOutdated := .notFound, packageJsonExists := false, npmOutdated := .notFound }

/-- Claim C1, witness: the formatting issue detected in `c1Env` is fixable and
indeed carries a non-empty remedy. -/
theorem detector_issues_fixable_have_remedy_witness :
    ∃ c, (formattingIssue ".").fix_command = some c ∧ c ≠ "" :=
  detector_issues_fixable_have_remedy c1Env (formattingIssue ".") (by decide) rfl

/-! Claim C2: Fixer idempotence. -/

/-- Fix environment in which every fix command succeeds. -/
def c2FixEnv : FixEnv :=
  { workspace := ".", blackFix := .ok (), isortFix := .ok (), reqFiles := [],
    pipInstall := .ok (), packageJsonExists := true, npmUpdate := .ok () }

/-- Workspace with a Dockerfile and no ignore manifest, for the docker fixer
half of claim C2. -/
def c2Ws : FsWorkspace := ⟨some "FROM python:3.11\nRUN pip install .", none⟩

/-- Claim C2, counterexample: a second successful `fix_formatting` on the same
(already formatted) workspace is not a `fixed_count` no-op — the first
application takes the counter to 2, the second to 4. -/
theorem fix_formatting_not_idempotent :
    (IssueFixer.fix_formatting c2FixEnv ⟨0⟩).2.fixed_count = 2 ∧
    (IssueFixer.fix_formatting c2FixEnv
      (IssueFixer.fix_formatting c2FixEnv ⟨0⟩).2).2.fixed_count = 4 := by
  decide

/-- Claim C2 (amended): only the docker fixer is idempotent — re-applying
`optimize_dockerfile` to its own result is a no-change no-op for every
workspace — while `fix_formatting` and `fix_dependencies` add 2 resp. 1 to
`fixed_count` on every successful application, a second one included. -/
theorem fixer_idempotence_corrected (ws : FsWorkspace) (env : FixEnv) (s : FixerState)
    (hb : env.blackFix = .ok ()) (hi : env.isortFix = .ok ())
    (hr : env.reqFiles = []) (hp : env.packageJsonExists = true)
    (hn : env.npmUpdate = .ok ()) :
    DockerFixer.optimize_dockerfile (DockerFixer.optimize_dockerfile ws).2 =
      (false, (DockerFixer.optimize_dockerfile ws).2) ∧
    (IssueFixer.fix_formatting env s).2.fixed_count = s.fixed_count + 2 ∧
    (IssueFixer.fix_dependencies env s).2.fixed_count = s.fixed_count + 1 := by
  refine ⟨?_, ?_, ?_⟩
  · rcases ws with ⟨df, di⟩
    cases df <;> cases di <;> rfl
  · simp [IssueFixer.fix_formatting, hb, hi, CallResult.failed]
  · simp [IssueFixer.fix_dependencies, hr, hp, hn, CallResult.failed]

/-- Claim C2, witness: the corrected statement evaluated on a concrete
workspace, all-succeeding fix environment and a fresh fixer. -/
theorem fixer_idempotence_corrected_witness :
    DockerFixer.optimize_dockerfile (DockerFixer.optimize_dockerfile c2Ws).2 =
      (false, (DockerFixer.optimize_dockerfile c2Ws).2) ∧
    (IssueFixer.fix_formatting c2FixEnv ⟨0⟩).2.fixed_count = 0 + 2 ∧
    (IssueFixer.fix_dependencies c2FixEnv ⟨0⟩).2.fixed_count = 0 + 1 :=
  fixer_idempotence_corrected c2Ws c2FixEnv ⟨0⟩ rfl rfl rfl rfl rfl

/-! Claim C3: validator short-circuit on ecosystem absence. -/

/-- Validator environment for a workspace containing no ecosystem at all: no
Python file, no `package.json`, no Docker files; compiling nothing succeeds
and pytest completes with a non-zero status (as it does when it collects no
tests). -/
def c3Env : ValEnv :=
  { pyFiles := [], pyCompile := .ok 0, pytest := .ok (5, "no tests ran"),
    packageJsonExists := false, npmTest := .notFound,
    dockerfileExists := false, dockerBuild := .notFound,
    composeExists := false, composeConfig := .notFound }

/-- Claim C3, counterexample: `PythonValidator.validate` has no marker-file
short-circuit — on a workspace with no Python file it still runs its checks
and here returns `passed = false`, so the absence of the ecosystem became a
validation failure. -/
theorem python_validator_fails_on_absent_ecosystem :
    c3Env.pyFiles = [] ∧ (PythonValidator.validate c3Env).1 = false := by
  decide

/-- Claim C3 (amended): only `JavaScriptValidator` short-circuits on its
marker file, answering `(True, "No JavaScript project found")` when
`package.json` is absent; `DockerValidator` merely skips its steps when its
files are absent, answering the generic `(True, "Docker validation passed")`;
`PythonValidator` checks no marker at all and can fail on an absent ecosystem. -/
theorem validator_absence_behaviour (env : ValEnv)
    (hjs : env.packageJsonExists = false) (hdf : env.dockerfileExists = false)
    (hdc : env.composeExists = false) :
    JavaScriptValidator.validate env = (true, "No JavaScript project found") ∧
    DockerValidator.validate env = (true, "Docker validation passed") := by
  constructor
  · simp [JavaScriptValidator.validate, hjs]
  · simp [DockerValidator.validate, hdf, hdc]

/-- Claim C3, witness: the amended statement evaluated on the empty-workspace
validator environment. -/
theorem validator_absence_behaviour_witness :
    JavaScriptValidator.validate c3Env = (true, "No JavaScript project found") ∧
    DockerValidator.validate c3Env = (true, "Docker validation passed") :=
  validator_absence_behaviour c3Env rfl rfl rfl

/-! Claim C4: validator chain completeness and aggregation. -/

/-- Unfolding lemma for the chain loop: the loop appends exactly one record per
remaining validator and conjoins the carried flag with their passed flags. -/
lemma validate_all_go_spec (vs : List VOutcome) (b : Bool) (rs : List VRecord) :
    validate_all_go vs b rs =
      (b && (vs.map recordOf).all (fun r => r.passed), rs ++ vs.map recordOf) := by
  induction vs generalizing b rs with
  | nil => simp [validate_all_go]
  | cons v rest ih =>
    rcases v with ⟨nm, e | ⟨p, m⟩⟩
    · simp [validate_all_go, ih, recordOf]
    · cases p <;> simp [validate_all_go, ih, recordOf]

/-- Claim C4: `validate_all` produces exactly one record per registered
validator (the concrete three-validator chain producing three for every
environment), the aggregate `all_passed` equals the AND of all records' passed
flags, the records are exactly the per-validator outcomes in order, and a
validator whose call raises contributes a failed record carrying the error
text instead of re-raising. -/
theorem validate_all_complete (vs : List VOutcome) (env : ValEnv) :
    (validate_all vs).2.length = vs.length ∧
    (validate_all vs).1 = (validate_all vs).2.all (fun r => r.passed) ∧
    (validate_all vs).2 = vs.map recordOf ∧
    (∀ nm e, recordOf (nm, Except.error e) = ⟨nm, false, "Error: " ++ e⟩) ∧
    (chain_validate_all env).2.length = 3 := by
  refine ⟨?_, ?_, ?_, fun nm e => rfl, ?_⟩
  · simp [validate_all, validate_all_go_spec]
  · simp [validate_all, validate_all_go_spec]
  · simp [validate_all, validate_all_go_spec]
  · simp [chain_validate_all, validate_all, validate_all_go_spec, chainRegistered]

/-! Claim C5: the orchestrator always reports success. -/

/-- Claim C5: `WorkflowOrchestrator.run` returns success for every
environment; when detection yields zero findings it succeeds immediately
without entering the fix phase (zero fix invocations, zero fixes), and with
findings present it still returns success whatever the fix outcome. -/
theorem orchestrator_run_always_succeeds (env : RunEnv) :
    (WorkflowOrchestrator.run env).success = true ∧
    (IssueDetector.run_all_detectors env.detect = [] →
      WorkflowOrchestrator.run env =
        { success := true, fixedCount := 0, log := ⟨0, 0⟩, enteredFixPhase := false }) := by
  constructor
  · unfold WorkflowOrchestrator.run
    by_cases h : IssueDetector.run_all_detectors env.detect = [] <;> simp [h]
  · intro h
    unfold WorkflowOrchestrator.run
    simp [h]

/-- Run environment in which every external capability is absent: detection
finds nothing. -/
def c5Env : RunEnv :=
  { detect := { workspace := ".", blackCheck := .notFound, isortCheck := .notFound,
                pyFiles := [], pylint := .notFound, bandit := .notFound, reqFiles := [],
                pipOutdated := .notFound, packageJsonExists := false,
                npmOutdated := .notFound },
    fix := { workspace := ".", blackFix := .notFound, isortFix := .notFound,
             reqFiles := [], pipInstall := .notFound, packageJsonExists := false,
             npmUpdate := .notFound } }

/-- Claim C5, witness: on the empty-capability environment the run succeeds
immediately, with the fix phase never entered. -/
theorem orchestrator_run_always_succeeds_witness :
    (WorkflowOrchestrator.run c5Env).success = true ∧
    WorkflowOrchestrator.run c5Env =
      { success := true, fixedCount := 0, log := ⟨0, 0⟩, enteredFixPhase := false } :=
  ⟨(orchestrator_run_always_succeeds c5Env).1,
   (orchestrator_run_always_succeeds c5Env).2 (by decide)⟩

/-! Claim C6: security findings are surfaced, never auto-fixed. -/

/-- Claim C6: every Issue the security detector produces has
`fixable = false`, and on a report consisting of security findings
`apply_fixes` invokes no fix method and leaves `fixed_count` untouched —
security findings are only surfaced, never remediated. -/
theorem security_findings_never_fixed (env : DetectEnv) (fenv : FixEnv)
    (issues : List Issue) (s : FixerState)
    (hsec : ∀ i ∈ issues, i.issue_type = "security") :
    (∀ i ∈ IssueDetector.detect_security_issues env, i.fixable = false) ∧
    IssueFixer.apply_fixes fenv issues s = (s.fixed_count, s, ⟨0, 0⟩) := by
  constructor
  · intro i hi
    obtain ⟨b, rfl⟩ := mem_detect_security hi
    rfl
  · have hf : issues.filter
        (fun i => ["formatting", "imports"].contains i.issue_type) = [] := by
      rw [List.filter_eq_nil_iff]
      intro a ha
      rw [hsec a ha]
      decide
    have hd : issues.filter
        (fun i => ["dependencies", "npm-dependencies"].contains i.issue_type) = [] := by
      rw [List.filter_eq_nil_iff]
      intro a ha
      rw [hsec a ha]
      decide
    unfold IssueFixer.apply_fixes
    simp only [hf, hd]
    simp

/-- Bandit result entry exercising claim C6. -/
def c6Bandit : BanditIssue := ⟨"HIGH", "app.py", 12, "hardcoded password detected"⟩

/-- Detection environment for claim C6: bandit reports one finding and every
other capability is absent. -/
def c6Env : DetectEnv :=
  { workspace := ".", blackCheck := .notFound, isortCheck := .notFound, pyFiles := [],
    pylint := .notFound, bandit := .ok (some [c6Bandit]), reqFiles := [],
    pipOutdated := .notFound, packageJsonExists := false, npmOutdated := .notFound }

/-- Claim C6, witness: the one detected security finding of `c6Env` is not
fixable, and applying the fix phase to the all-security report changes
nothing. -/
theorem security_findings_never_fixed_witness :
    (securityIssue c6Bandit).fixable = false ∧
    IssueFixer.apply_fixes c2FixEnv [securityIssue c6Bandit] ⟨0⟩ = (0, ⟨0⟩, ⟨0, 0⟩) :=
  ⟨(security_findings_never_fixed c6Env c2FixEnv [securityIssue c6Bandit] ⟨0⟩
      (by decide)).1 (securityIssue c6Bandit) (by decide),
   (security_findings_never_fixed c6Env c2FixEnv [securityIssue c6Bandit] ⟨0⟩
      (by decide)).2⟩

/-! Claim C7: detectors degrade on capability failure. -/

/-- Detection environment in which the black check reports a deviation and the
isort check then raises a timeout. -/
def c7Env : DetectEnv :=
  { workspace := ".", blackCheck := .ok 1,
    isortCheck := .raised "Command isort timed out after 30 seconds",
    pyFiles := [], pylint := .notFound, bandit := .ok none, reqFiles := [],
    pipOutdated := .notFound, packageJsonExists := false, npmOutdated := .notFound }

/-- Claim C7, counterexample: with a formatting finding already accumulated,
a timeout raised by the isort check makes `detect_formatting_issues` return
that one finding — a non-empty sequence — so a timeout in a detector's
external capability does not yield an empty sequence. -/
theorem detect_formatting_timeout_not_empty :
    c7Env.isortCheck.failed = true ∧
    IssueDetector.detect_formatting_issues c7Env = [formattingIssue "."] := by
  decide

/-- Claim C7 (amended): a failing external capability never propagates — the
detector returns the findings accumulated before the failure, which is the
empty sequence when the failure hits the detector's first external call (shown
for black in the formatting detector and for bandit in the security detector)
— and `run_all_detectors` still returns every other detector's findings
unaffected. -/
theorem detector_degrade_on_failure (env : DetectEnv)
    (hb : env.blackCheck.failed = true) :
    IssueDetector.detect_formatting_issues env = [] ∧
    IssueDetector.run_all_detectors env =
      IssueDetector.detect_linting_issues env ++
      IssueDetector.detect_security_issues env ++
      IssueDetector.detect_dependency_issues env ∧
    (env.bandit.failed = true → IssueDetector.detect_security_issues env = []) := by
  have hform : IssueDetector.detect_formatting_issues env = [] := by
    unfold IssueDetector.detect_formatting_issues
    rcases hcb : env.blackCheck with rc | _ | m
    · rw [hcb] at hb
      simp [CallResult.failed] at hb
    · rfl
    · rfl
  refine ⟨hform, ?_, ?_⟩
  · unfold IssueDetector.run_all_detectors
    rw [hform, List.nil_append]
  · intro hban
    unfold IssueDetector.detect_security_issues
    rcases hcb : env.bandit with v | _ | m
    · rw [hcb] at hban
      simp [CallResult.failed] at hban
    · rfl
    · rfl

/-- Detection environment in which black is missing, bandit raises a timeout,
and the linting and dependency detectors do find issues. -/
def c7WEnv : DetectEnv :=
  { workspace := ".", blackCheck := .notFound, isortCheck := .notFound,
    pyFiles := ["app.py"], pylint := .ok ("app.py:1: error: bad", ""),
    bandit := .raised "Command bandit timed out after 60 seconds", reqFiles := [],
    pipOutdated := .notFound, packageJsonExists := true, npmOutdated := .ok "stale" }

/-- Claim C7, witness: with black missing and bandit timing out, the
formatting and security detectors yield nothing while the overall run still
carries the linting and npm findings. -/
theorem detector_degrade_on_failure_witness :
    IssueDetector.detect_formatting_issues c7WEnv = [] ∧
    IssueDetector.run_all_detectors c7WEnv =
      IssueDetector.detect_linting_issues c7WEnv ++
      IssueDetector.detect_security_issues c7WEnv ++
      IssueDetector.detect_dependency_issues c7WEnv ∧
    IssueDetector.detect_security_issues c7WEnv = [] := by
  obtain ⟨h1, h2, h3⟩ := detector_degrade_on_failure c7WEnv rfl
  exact ⟨h1, h2, h3 rfl⟩

/-! Claim C8: the outdated-npm-packages scenario. -/

/-- Claim C8: in a workspace whose only defect is a `package.json` with
outdated npm packages (formatting and import checks clean, no Python files, an
empty bandit report, no requirements files), detection yields exactly the one
fixable `npm-dependencies` finding, and the fix phase on that report invokes
the dependency upgrade exactly once (and the formatting fix not at all),
ending with `fixed_count = 1`. -/
theorem npm_outdated_scenario (env : DetectEnv) (fenv : FixEnv)
    (hb : env.blackCheck = .ok 0) (hi : env.isortCheck = .ok 0)
    (hpy : env.pyFiles = []) (hband : env.bandit = .ok none)
    (hreq : env.reqFiles = []) (hpkg : env.packageJsonExists = true)
    (hnpm : ∃ out, env.npmOutdated = .ok out ∧ out ≠ "" ∧ out ≠ "\x7b\x7d")
    (hfreq : fenv.reqFiles = []) (hfpkg : fenv.packageJsonExists = true)
    (hfnpm : fenv.npmUpdate = .ok ()) :
    IssueDetector.run_all_detectors env = [npmDepsIssue] ∧
    npmDepsIssue.issue_type = "npm-dependencies" ∧ npmDepsIssue.fixable = true ∧
    IssueFixer.apply_fixes fenv [npmDepsIssue] ⟨0⟩ = (1, ⟨1⟩, ⟨0, 1⟩) := by
  obtain ⟨out, ho, hne, hnb⟩ := hnpm
  have h1 : IssueDetector.detect_formatting_issues env = [] := by
    unfold IssueDetector.detect_formatting_issues
    rw [hb, hi]
    simp
  have h2 : IssueDetector.detect_linting_issues env = [] := by
    unfold IssueDetector.detect_linting_issues
    simp [hpy]
  have h3 : IssueDetector.detect_security_issues env = [] := by
    unfold IssueDetector.detect_security_issues
    rw [hband]
  have h4 : IssueDetector.detect_dependency_issues env = [npmDepsIssue] := by
    unfold IssueDetector.detect_dependency_issues
    rw [hreq, hpkg, ho]
    rcases hp : env.pipOutdated with v | _ | m
    · rcases v with _ | l <;> simp [hne, hnb]
    · simp [hne, hnb]
    · simp [hne, hnb]
  have hf1 : [npmDepsIssue].filter
      (fun i => ["formatting", "imports"].contains i.issue_type) = [] := by decide
  have hf2 : [npmDepsIssue].filter
      (fun i => ["dependencies", "npm-dependencies"].contains i.issue_type) =
        [npmDepsIssue] := by decide
  have happ : IssueFixer.apply_fixes fenv [npmDepsIssue] ⟨0⟩ = (1, ⟨1⟩, ⟨0, 1⟩) := by
    unfold IssueFixer.apply_fixes
    simp only [hf1, hf2]
    simp [IssueFixer.fix_dependencies, hfreq, hfpkg, hfnpm, CallResult.failed]
  refine ⟨?_, rfl, rfl, happ⟩
  unfold IssueDetector.run_all_detectors
  rw [h1, h2, h3, h4]
  rfl

/-- Detection environment for the claim C8 scenario: only `npm outdated`
reports anything. -/
def c8DetEnv : DetectEnv :=
  { workspace := ".", blackCheck := .ok 0, isortCheck := .ok 0, pyFiles := [],
    pylint := .notFound, bandit := .ok none, reqFiles := [],
    pipOutdated := .ok none, packageJsonExists := true,
    npmOutdated := .ok "\x7b \"express\": \x7b \"current\": \"4.17.1\" \x7d \x7d" }

/-- Claim C8, witness: the scenario evaluated on the concrete environment. -/
theorem npm_outdated_scenario_witness :
    IssueDetector.run_all_detectors c8DetEnv = [npmDepsIssue] ∧
    npmDepsIssue.issue_type = "npm-dependencies" ∧ npmDepsIssue.fixable = true ∧
    IssueFixer.apply_fixes c2FixEnv [npmDepsIssue] ⟨0⟩ = (1, ⟨1⟩, ⟨0, 1⟩) :=
  npm_outdated_scenario c8DetEnv c2FixEnv rfl rfl rfl rfl rfl rfl
    ⟨_, rfl, by decide, by decide⟩ rfl rfl rfl

/-! Claim C9: the missing-dockerignore scenario. -/

/-- Claim C9: on a workspace with a `Dockerfile` and no `.dockerignore`, the
docker fix creates the `.dockerignore` with the documented default exclusion
set (the stripped `default_ignores` literal) and reports a change, and a
second application on the resulting workspace reports no change and changes
nothing. -/
theorem dockerignore_fix_scenario (ws : FsWorkspace)
    (hdf : ws.dockerfile.isSome = true) (hdi : ws.dockerignore = none) :
    DockerFixer.optimize_dockerfile ws =
      (true, { ws with dockerignore := some (strStrip default_ignores) }) ∧
    strStrip default_ignores =
      ".git\n.gitignore\n.dockerignore\n.env\nnode_modules\n__pycache__\n.pytest_cache\n.venv\nbuild\ndist\n*.egg-info\n.vscode\n.idea" ∧
    DockerFixer.optimize_dockerfile
        { ws with dockerignore := some (strStrip default_ignores) } =
      (false, { ws with dockerignore := some (strStrip default_ignores) }) := by
  rcases ws with ⟨df, di⟩
  obtain ⟨d, hd⟩ := Option.isSome_iff_exists.mp hdf
  simp only at hdi
  subst hd
  subst hdi
  exact ⟨rfl, by decide, rfl⟩

/-- Workspace for the claim C9 scenario. -/
def c9Ws : FsWorkspace := ⟨some "FROM node:20\nCOPY . .\n", none⟩

/-- Claim C9, witness: the scenario evaluated on the concrete workspace. -/
theorem dockerignore_fix_scenario_witness :
    DockerFixer.optimize_dockerfile c9Ws =
      (true, { c9Ws with dockerignore := some (strStrip default_ignores) }) ∧
    strStrip default_ignores =
      ".git\n.gitignore\n.dockerignore\n.env\nnode_modules\n__pycache__\n.pytest_cache\n.venv\nbuild\ndist\n*.egg-info\n.vscode\n.idea" ∧
    DockerFixer.optimize_dockerfile
        { c9Ws with dockerignore := some (strStrip default_ignores) } =
      (false, { c9Ws with dockerignore := some (strStrip default_ignores) }) :=
  dockerignore_fix_scenario c9Ws rfl rfl

/-! Claim C10: the docker best-practices detector always reports found. -/

/-- Claim C10: `detect_docker_best_practices` reports `found = true` for every
workspace; when no `Dockerfile` exists every best-practice check is unmet and
`count = 3` — so `found` never indicates that a docker defect was actually
detected. -/
theorem docker_detector_found_always_true (ws : FsWorkspace) :
    (DockerDetector.detect_docker_best_practices ws).found = true ∧
    (ws.dockerfile = none →
      (DockerDetector.detect_docker_best_practices ws).count = 3 ∧
      (DockerDetector.detect_docker_best_practices ws).details =
        [("multi_stage", false), ("layer_caching", false), ("security_scan", false)]) := by
  constructor
  · rfl
  · intro h
    rcases ws with ⟨df, di⟩
    simp only at h
    subst h
    exact ⟨rfl, rfl⟩

/-- Claim C10, witness: the detector on the empty workspace still answers
`found = true`, with all three checks unmet. -/
theorem docker_detector_found_always_true_witness :
    (DockerDetector.detect_docker_best_practices ⟨none, none⟩).found = true ∧
    (DockerDetector.detect_docker_best_practices ⟨none, none⟩).count = 3 ∧
    (DockerDetector.detect_docker_best_practices ⟨none, none⟩).details =
      [("multi_stage", false), ("layer_caching", false), ("security_scan", false)] :=
  ⟨(docker_detector_found_always_true ⟨none, none⟩).1,
   (docker_detector_found_always_true ⟨none, none⟩).2 rfl⟩
